import Mathlib

/-!
# Verification of the Preview-DICOM backend core

Shallow embedding of the authentication / session-security subsystem and the
DICOM import/export pipeline of the Preview-DICOM backend, together with
theorems settling the specification claims about them.

Conventions of the embedding:
* database tables are Lean lists of rows; `db.add` + `commit` is an append,
  and a unique index makes the commit fail with an `integrityError` when the
  indexed value is already present (`src/backend/alembic/versions/001_add_security_tables.py`
  creates `ix_revoked_tokens_jti` with `unique=True`; `models.py` declares
  `patients.external_id` with `unique=True`);
* timestamps are naturals; machine strings are Lean `String`s;
* the JWT layer (`python-jose`) is abstracted: a token is its claim set plus a
  boolean recording whether signature/expiry verification succeeds, which is
  exactly the information `decode_token` extracts;
* `pydicom` is abstracted by parse/serialize functions passed as parameters;
  a parse failure models both `InvalidDicomError` and any other exception
  raised while reading a dataset;
* Python truthiness on `Option String` values (`if not csrf_cookie`,
  `patient.orthanc_patient_id or ...`) is modelled by `falsyStr`;
* the imaging-gateway client's methods are `async def`
  (`services/orthanc.py`), but `routers/patients.py` calls them without
  `await`: such a call binds a coroutine object, modelled by `Coroutine`,
  which is neither bytes nor iterable — using it as either raises, and the
  surrounding `except` blocks decide what the route then does.
-/

namespace PreviewDicom

/-- Python truthiness of an optional string: `None` and `""` are falsy. -/
def falsyStr : Option String → Bool
  | none => true
  | some s => s.isEmpty

/-- `a or b` on an optional string with Python falsiness (`x or y`). -/
def orFalsy (a : Option String) (b : String) : String :=
  match a with
  | none => b
  | some s => if s.isEmpty then b else s

/-- HTTP-level error as raised by the backend: `HTTPException` and the
`AppException` subclasses of `core/exceptions.py` (which add a stable
machine-readable `error_code` next to the human `detail`). -/
structure HErr where
  status : Nat
  detail : String
  error_code : Option String
  deriving Repr, DecidableEq

/-- `AuthenticationError(detail, error_code)` from `core/exceptions.py`:
status 401. -/
def AuthenticationError (detail code : String) : HErr :=
  { status := 401, detail := detail, error_code := some code }

/-- `ValidationError(detail, error_code)` from `core/exceptions.py`:
status 400. -/
def mkValidationError (detail code : String) : HErr :=
  { status := 400, detail := detail, error_code := some code }

/-- `NotFoundError(detail, error_code)` from `core/exceptions.py`:
status 404. -/
def mkNotFoundError (detail code : String) : HErr :=
  { status := 404, detail := detail, error_code := some code }

/-- A bare `HTTPException(status_code, detail)` (no error code). -/
def httpException (status : Nat) (detail : String) : HErr :=
  { status := status, detail := detail, error_code := none }

/-! ## CSRF guard (`dependencies.py`, `enforce_csrf`) -/

/-- Outcome of a request guard: either the request proceeds or an error is
raised. -/
inductive GuardOutcome where
  | proceed
  | reject (e : HErr)
  deriving Repr, DecidableEq

/-- `enforce_csrf` from `src/backend/app/dependencies.py` (lines 40-50).
The source reads the `csrf_token` cookie and the `X-CSRF-Token` header and,
when either is falsy or they differ, executes `pass` — the
`raise HTTPException(403, ...)` below it is commented out
("TODO: Re-enable strict CSRF check"). So the guard lets every request
proceed. -/
def enforce_csrf (csrfCookie csrfHeader : Option String) : GuardOutcome :=
  if falsyStr csrfCookie || falsyStr csrfHeader || decide (csrfCookie ≠ csrfHeader) then
    -- raise HTTPException(403) is commented out in the source: fall through
    GuardOutcome.proceed
  else
    GuardOutcome.proceed

/-! ## Revocation ledger (`core/security.py` and migration 001) -/

/-- A row of the `revoked_tokens` table
(`alembic/versions/001_add_security_tables.py`, lines 21-33). -/
structure RevokedToken where
  jti : String
  token_type : String
  user_id : Nat
  revoked_at : Nat
  expires_at : Nat
  deriving Repr, DecidableEq

/-- Database-level failure of a `commit`. -/
inductive DbError where
  | integrityError
  deriving Repr, DecidableEq

/-- `db.add(row)` followed by `db.commit()` against the `revoked_tokens`
table, whose index `ix_revoked_tokens_jti` is unique: the commit fails with
an `IntegrityError` when a row with the same `jti` already exists, else the
row is appended. -/
def insertRevoked (db : List RevokedToken) (r : RevokedToken) :
    Except DbError (List RevokedToken) :=
  if db.any (fun e => e.jti == r.jti) then
    Except.error DbError.integrityError
  else
    Except.ok (db ++ [r])

/-- `revoke_token(jti, token_type, user_id, expires_at, db)` from
`src/backend/app/core/security.py` (lines 83-94): constructs a
`RevokedToken` row and commits it (plain insert, no duplicate handling). -/
def revoke_token (jti token_type : String) (user_id now expires_at : Nat)
    (db : List RevokedToken) : Except DbError (List RevokedToken) :=
  insertRevoked db
    { jti := jti, token_type := token_type, user_id := user_id,
      revoked_at := now, expires_at := expires_at }

/-- `is_token_revoked(jti, db)` from `core/security.py` (lines 77-80):
existence check on the `revoked_tokens` table. -/
def is_token_revoked (jti : String) (db : List RevokedToken) : Bool :=
  db.any (fun e => e.jti == jti)

/-- `query.filter(cond).delete()`: removes every row satisfying `cond`. -/
def deleteWhere (db : List RevokedToken) (cond : RevokedToken → Bool) :
    List RevokedToken :=
  db.filter (fun e => !(cond e))

/-- `cleanup_expired_tokens(db)` from `core/security.py` (lines 97-101):
deletes the rows with `expires_at < datetime.utcnow()`; `now` is passed
explicitly here. -/
def cleanup_expired_tokens (now : Nat) (db : List RevokedToken) :
    List RevokedToken :=
  deleteWhere db (fun e => decide (e.expires_at < now))

/-! ## Users and login (`models.py`, `services/user_service.py`, `routers/auth.py`) -/

/-- A row of the `users` table (`models.py`, class `User`). -/
structure User where
  id : Nat
  email : String
  full_name : String
  hashed_password : String
  role : String
  status : String
  group_id : Option Nat
  deriving Repr, DecidableEq

/-- `UserService.get_user_by_email`: first row with the given email. -/
def get_user_by_email (db : List User) (email : String) : Option User :=
  db.find? (fun u => u.email == email)

/-- `UserService.get_user`: first row with the given id; the argument is
optional because `routers/auth.py` passes `payload.get("sub")`. -/
def get_user (db : List User) : Option Nat → Option User
  | none => none
  | some i => db.find? (fun u => u.id == i)

/-- `UserService.authenticate_user(db, email, password)` from
`services/user_service.py` (lines 46-61), parametric in the `passlib`
oracles: `supported` abstracts `is_supported_password_hash` and `verify`
abstracts `verify_password`. Returns `none` on each of the four failure
conditions, in source order: user not found, unsupported hash, password
mismatch, status not active. -/
def authenticate_user (supported : String → Bool)
    (verify : String → String → Bool) (db : List User)
    (email password : String) : Option User :=
  match get_user_by_email db email with
  | none => none
  | some user =>
    if !(supported user.hashed_password) then none
    else if !(verify password user.hashed_password) then none
    else if user.status != "active" then none
    else some user

/-- What the `/auth/login` route returns on success (the parts of
`schemas.AuthResponse` plus the cookies it sets that matter here). -/
structure LoginOk where
  userId : Nat
  userRole : String
  deriving Repr, DecidableEq

/-- The credential-checking part of `login` from `routers/auth.py`
(lines 19-71): when `authenticate_user` returns `None`, raise
`AuthenticationError("Email ou mot de passe incorrect", "INVALID_CREDENTIALS")`;
otherwise the flow proceeds to token issuance. -/
def login (supported : String → Bool) (verify : String → String → Bool)
    (db : List User) (email password : String) : Except HErr LoginOk :=
  match authenticate_user supported verify db email password with
  | none =>
      Except.error
        (AuthenticationError "Email ou mot de passe incorrect" "INVALID_CREDENTIALS")
  | some user => Except.ok { userId := user.id, userRole := user.role }

/-! ## Token refresh (`routers/auth.py`, `/auth/refresh`) -/

/-- The claim set embedded in a JWT, restricted to the keys
`routers/auth.py` reads (`sub`, `jti`, `type`, `exp`); every key is read
with `payload.get`, hence optional. `sub` is the user id
(`create_token` stores `str(user.id)`). -/
structure Claims where
  sub : Option Nat
  jti : Option String
  type : Option String
  exp : Nat
  deriving Repr, DecidableEq

/-- A presented token: its claim set plus whether `python-jose`
signature/expiry verification succeeds (the only fact `decode_token`
extracts beyond the claims). -/
structure Tok where
  claims : Claims
  valid : Bool
  deriving Repr, DecidableEq

/-- `decode_token` from `core/security.py` (lines 65-74): returns the
payload, or raises `HTTPException(401, "Token invalide ou expiré")` on any
`JWTError`. -/
def decode_token (t : Tok) : Except HErr Claims :=
  if t.valid then Except.ok t.claims
  else Except.error (httpException 401 "Token invalide ou expiré")

/-- A row of the `user_sessions` table (migration 001, lines 36-48;
client-metadata columns elided). Its primary key `id` is the refresh
token's JTI. -/
structure UserSession where
  id : String
  user_id : Nat
  created_at : Nat
  last_activity : Nat
  is_active : Bool
  deriving Repr, DecidableEq

/-- The database state the `/auth/refresh` route touches. -/
structure AuthDb where
  users : List User
  revoked : List RevokedToken
  sessions : List UserSession
  deriving Repr, DecidableEq

/-- A token newly issued by `create_token(data, ttl, token_type)`:
`sub`, fresh `jti`, `type` and expiry `iat + ttl`. -/
structure IssuedToken where
  sub : Nat
  type : String
  jti : String
  exp : Nat
  deriving Repr, DecidableEq

/-- What the `/auth/refresh` route hands back: the body
(`schemas.AuthResponse`: new access token + csrf token) and the
`response.set_cookie` calls it performed. -/
structure RefreshOk where
  access_token : IssuedToken
  csrf_token : String
  setCookies : List (String × String)
  deriving Repr, DecidableEq

/-- `refresh_token` route from `routers/auth.py` (lines 74-118).
`refreshCookie` is the decoded form of the `refresh_token` cookie (absent
cookie = `none`), `csrfCookie` the `csrf_token` cookie, `now` the clock,
`freshJti`/`freshCsrf` the random values `create_token` /
`generate_csrf_token` would draw. The route sets no cookie on the
response, hence `setCookies := []` on success. -/
def refresh (db : AuthDb) (refreshCookie : Option Tok)
    (csrfCookie : Option String) (now accessTtl : Nat)
    (freshJti freshCsrf : String) : Except HErr (RefreshOk × AuthDb) :=
  match refreshCookie with
  | none => Except.error (AuthenticationError "Token manquant" "MISSING_TOKEN")
  | some tok =>
    match decode_token tok with
    | Except.error e => Except.error e
    | Except.ok payload =>
      if payload.type != some "refresh" then
        Except.error (AuthenticationError "Type invalide" "INVALID_TYPE")
      else
        match payload.jti with
        | none => Except.error (AuthenticationError "Token révoqué" "REVOKED")
        | some jti =>
          if jti.isEmpty || is_token_revoked jti db.revoked then
            Except.error (AuthenticationError "Token révoqué" "REVOKED")
          else
            match get_user db.users payload.sub with
            | none =>
                Except.error (AuthenticationError "Utilisateur inactif" "INACTIVE")
            | some user =>
              if user.status != "active" then
                Except.error (AuthenticationError "Utilisateur inactif" "INACTIVE")
              else
                let db2 : AuthDb :=
                  { db with
                    sessions := db.sessions.map (fun s =>
                      if s.id == jti then { s with last_activity := now }
                      else s) }
                Except.ok
                  ({ access_token :=
                      { sub := user.id, type := "access", jti := freshJti,
                        exp := now + accessTtl },
                     csrf_token := orFalsy csrfCookie freshCsrf,
                     setCookies := [] }, db2)

/-! ## External imaging gateway and the image proxy route -/

/-- Raw binary payload (a DICOM file's bytes). -/
abbrev Bytes := List Nat

/-- One element of the list Orthanc returns for
`GET /patients/{id}/instances`: the fields `_add_patient_to_zip` and
`get_patient_images` read (`ID` and the `MainDicomTags` entries
`SeriesNumber` / `InstanceNumber`, all optional). -/
structure InstanceObj where
  id : Option String
  seriesNumber : Option String
  instanceNumber : Option String
  deriving Repr, DecidableEq

/-- Orthanc's answer to `POST /instances`: the keys `import_patient` reads
(`ParentPatient`, `ParentStudy`, both via `.get`). -/
structure UploadResult where
  parentPatient : Option String
  parentStudy : Option String
  deriving Repr, DecidableEq

/-- The External Imaging Gateway (`services/orthanc.py`, `OrthancClient`)
at its interface boundary: what awaiting each `async def` method would
yield — a value, or `none` for a transport failure; `upload_stream` is
total here because the claims below only depend on which bytes it
receives. `routers/patients.py` calls these methods without `await`
(see `Coroutine`), so the route handlers below never actually reach this
interface. -/
structure Orthanc where
  stream_instance : String → Option Bytes
  list_instances : String → Option (List InstanceObj)
  upload_stream : Bytes → UploadResult

/-- An HTTP response body as built by the image proxy. -/
structure HResp where
  status : Nat
  media_type : String
  body : Bytes
  deriving Repr, DecidableEq

/-- A coroutine object: what calling an `async def` method without `await`
binds. It is not bytes and not iterable. -/
inductive Coroutine where
  | coroutine
  deriving Repr, DecidableEq

/-- `Response(content=...)` (Starlette) renders a `bytes` body; handed a
coroutine object, `render` raises (`AttributeError`: a coroutine has no
`encode`). -/
def renderResponse : Coroutine → Except Unit HResp :=
  fun _ => Except.error ()

/-- `get_dicom_image` route handler from `routers/patients.py`
(lines 279-289). At line 286 the handler binds
`content = orthanc.stream_instance(instance_id)` — `stream_instance` is
`async def` (`services/orthanc.py` line 30) and the call is not awaited —
so `content` is a coroutine object; `Response(content=content, ...)`
raises inside the `try`, and the blanket `except Exception` turns every
request into `HTTPException(404, "Image non trouvée")`. The gateway is
never actually consulted. -/
def get_dicom_image (orthanc : Orthanc) (instance_id : String) :
    Except HErr HResp :=
  let content : Coroutine := Coroutine.coroutine
  match renderResponse content with
  | Except.ok resp => Except.ok resp
  | Except.error _ => Except.error (httpException 404 "Image non trouvée")

/-- `get_current_user` from `dependencies.py` (lines 12-26): require a
bearer token, decode it, parse `sub` as an integer user id and load the
user; every failure is a 401. (`Claims.sub : Option Nat` absorbs both a
missing and a non-integer `sub`.) -/
def get_current_user (db : List User) (bearer : Option Tok) :
    Except HErr User :=
  match bearer with
  | none => Except.error (httpException 401 "Not authenticated")
  | some t =>
    match decode_token t with
    | Except.error e => Except.error e
    | Except.ok payload =>
      match payload.sub with
      | none => Except.error (httpException 401 "Token invalide")
      | some uid =>
        match db.find? (fun u => u.id == uid) with
        | none => Except.error (httpException 401 "Utilisateur introuvable")
        | some u => Except.ok u

/-- Request-level behavior of `GET /patients/images/{instance_id}`: the
route's signature declares only the `orthanc` dependency — unlike the
neighbouring routes it has no `Depends(get_current_user)` and no permission
check — so the handler runs without consulting the request's credential
material (`users` table and `bearer` token). -/
def get_dicom_image_route (users : List User) (bearer : Option Tok)
    (orthanc : Orthanc) (instance_id : String) : Except HErr HResp :=
  get_dicom_image orthanc instance_id

/-! ## Patient records and the import record step -/

/-- A row of the `patients` table (`models.py`, class `Patient`);
`external_id` is declared `unique=True`. -/
structure Patient where
  id : Nat
  external_id : String
  first_name : String
  last_name : String
  condition : Option String
  date_of_birth : Option String
  last_visit : Option String
  dicom_study_uid : Option String
  orthanc_patient_id : Option String
  deriving Repr, DecidableEq

/-- The `schemas.PatientCreate` payload (fields of `PatientBase`). -/
structure PatientCreate where
  external_id : String
  first_name : String
  last_name : String
  condition : Option String
  date_of_birth : Option String
  last_visit : Option String
  dicom_study_uid : Option String
  orthanc_patient_id : Option String
  deriving Repr, DecidableEq

/-- The row `Patient(**patient.dict())` builds, with `nextId` the
autoincrement primary key the database assigns. -/
def mkPatientRow (nextId : Nat) (p : PatientCreate) : Patient :=
  { id := nextId, external_id := p.external_id, first_name := p.first_name,
    last_name := p.last_name, condition := p.condition,
    date_of_birth := p.date_of_birth, last_visit := p.last_visit,
    dicom_study_uid := p.dicom_study_uid,
    orthanc_patient_id := p.orthanc_patient_id }

/-- `PatientService.create_patient` from `services/patient_service.py`
(lines 13-20): `Patient(**patient.dict())`, `db.add`, `db.commit`. The
unique constraint on `patients.external_id` makes the commit fail with an
`IntegrityError` when the external id is already taken. -/
def create_patient (db : List Patient) (p : PatientCreate) (nextId : Nat) :
    Except DbError (List Patient × Patient) :=
  if db.any (fun q => q.external_id == p.external_id) then
    Except.error DbError.integrityError
  else
    Except.ok (db ++ [mkPatientRow nextId p], mkPatientRow nextId p)

/-- The patient-record step of `POST /patients/import`
(`routers/patients.py`, lines 51-59): after parsing the JSON payload the
route calls `PatientService.create_patient` unconditionally — there is no
lookup by external id and no update branch. -/
def import_patient_record (db : List Patient) (payload : PatientCreate)
    (nextId : Nat) : Except DbError (List Patient × Patient) :=
  create_patient db payload nextId

/-! ## DICOM structural validation (`core/dicom_validator.py`) -/

/-- An upload stream (`fastapi.UploadFile`): the whole payload plus the
current read position; `read()` consumes from the position to the end,
`seek(0)` moves the position back to the start. -/
structure UploadFile where
  content : Bytes
  pos : Nat
  deriving Repr, DecidableEq

/-- An abstract `pydicom` dataset: the tags the backend reads or writes
(`PatientID`, `PatientName`); a missing tag is `none` (`hasattr`). -/
structure Dataset where
  patientID : Option String
  patientName : Option String
  deriving Repr, DecidableEq

/-- `DicomValidator.validate_dicom_file` from `core/dicom_validator.py`
(lines 16-62), parametric in the abstract `pydicom.dcmread`
(`parse`; `none` covers `InvalidDicomError` and any other read failure)
and in `settings.max_dicom_file_size` (`maxSize`). Checks, in source
order: size above the maximum (413), empty payload (400), unparseable
payload (400), missing `PatientID` tag (400 — the inner
`HTTPException` is itself caught by the blanket `except Exception` and
re-wrapped, hence the `Error validating` prefix). On success the read
position is reset to the start (`await file.seek(0)`) and the stream is
returned for reuse. Interpolated fragments of the source messages
(computed size, `str(e)`) are elided. -/
def validate_dicom_file (parse : Bytes → Option Dataset) (maxSize : Nat)
    (file : UploadFile) : Except HErr UploadFile :=
  let file_content := file.content.drop file.pos
  if file_content.length > maxSize then
    Except.error (httpException 413 "File too large")
  else if file_content.length = 0 then
    Except.error (httpException 400 "Empty file uploaded")
  else
    match parse file_content with
    | none => Except.error (httpException 400 "Invalid DICOM file")
    | some dcm =>
      if dcm.patientID.isNone then
        Except.error (httpException 400
          "Error validating DICOM file: Invalid DICOM: Missing PatientID tag")
      else
        Except.ok { file with pos := 0 }

/-! ## DICOM identity rewrite (`routers/patients.py`, import loop) -/

/-- The synthetic patient identifier built at line 67 of
`routers/patients.py`: `f"APP_{db_patient.id}_{db_patient.external_id}"`. -/
def unique_patient_id (id : Nat) (external_id : String) : String :=
  "APP_" ++ toString id ++ "_" ++ external_id

/-- The dataset after the tag rewrite of the import loop (lines 78-86):
`PatientID` is overwritten with the synthetic identifier; `PatientName`,
when the dataset has one, is overwritten with `"first last"` (or the
synthetic identifier when `first_name` is falsy). -/
def rewrittenDataset (patient : Patient) (ds : Dataset) : Dataset :=
  let uid := unique_patient_id patient.id patient.external_id
  let patient_name :=
    if patient.first_name.isEmpty then uid
    else patient.first_name ++ " " ++ patient.last_name
  { patientID := some uid,
    patientName :=
      match ds.patientName with
      | some _ => some patient_name
      | none => none }

/-- The rewrite step (lines 76-91): `dcmread`, overwrite the tags,
`save_as`; `none` models the block raising for any reason (the `except`
at line 96). -/
def rewriteDicom (parse : Bytes → Option Dataset)
    (serialize : Dataset → Bytes) (patient : Patient) (content : Bytes) :
    Option Bytes :=
  (parse content).map (fun ds => serialize (rewrittenDataset patient ds))

/-- The bytes one import-loop iteration uploads for a file (lines 76-100):
the rewritten bytes when the rewrite succeeds, the original unmodified
bytes otherwise (fallback at line 99) — never an abort. -/
def processFile (parse : Bytes → Option Dataset)
    (serialize : Dataset → Bytes) (patient : Patient) (content : Bytes) :
    Bytes :=
  match rewriteDicom parse serialize patient content with
  | some modified => modified
  | none => content

/-! ## DICOM export (`routers/patients.py`, lines 292-392) -/

/-- `PatientService.get_patient`: first row with the given primary key. -/
def get_patient (db : List Patient) (patient_id : Nat) : Option Patient :=
  db.find? (fun p => p.id == patient_id)

/-- `patient.external_id or patient.id` (lines 294, 298): the external id,
falling back to the primary key when falsy. -/
def externalOrInternal (p : Patient) : String :=
  if p.external_id.isEmpty then toString p.id else p.external_id

/-- The top-level folder for a patient in the archive
(`f"Patient-{patient.external_id or patient.id}"`, line 294). -/
def folderName (p : Patient) : String :=
  "Patient-" ++ externalOrInternal p

/-- What a ZIP member holds: the JSON metadata document (the identifying
fields of the payload built at lines 297-306) or the raw bytes of one
DICOM instance — the binary branch is what line 326 would write, but the
loop around it is dead code (see `add_patient_to_zip`). -/
inductive EntryContent where
  | jsonMeta (id : String) (orthancPatientId : Option String)
      (dicomStudyUid : Option String)
  | dicom (bytes : Bytes)
  deriving Repr, DecidableEq

/-- One member of the export archive. -/
structure ZipEntry where
  path : String
  content : EntryContent
  deriving Repr, DecidableEq

/-- `_add_patient_to_zip` from `routers/patients.py` (lines 292-331): one
JSON metadata document at `Patient-<id>/Patient-<id>.json`, then, when the
patient has remote linkage (line 310), whatever the instance loop emits.
The loop never runs: at line 312
`instance_objs = orthanc.list_instances(patient.orthanc_patient_id)` is
not awaited (`list_instances` is `async def`, `services/orthanc.py`
line 14), so `instance_objs` is a coroutine object and
`enumerate(instance_objs, start=1)` raises `TypeError`, which the blanket
`except` at line 330 swallows ("degrade to no images"). The per-instance
body at lines 314-329 — including its `<series>-<instance>.dcm` naming —
is dead code, and every folder holds exactly the JSON document. -/
def add_patient_to_zip (orth : Orthanc) (p : Patient) : List ZipEntry :=
  let folder := folderName p
  { path := folder ++ "/" ++ folder ++ ".json",
    content := EntryContent.jsonMeta (externalOrInternal p)
      p.orthanc_patient_id p.dicom_study_uid } ::
  (if falsyStr p.orthanc_patient_id then []
   else
     -- instance_objs is an un-awaited coroutine: enumerate raises
     -- TypeError and the except at line 330 swallows it — no entries
     [])

/-- `bulk_export_patients` from `routers/patients.py` (lines 360-392):
resolve each requested id through `PatientService.get_patient`, keeping
only the hits; raise `NotFoundError("Aucun patient trouvé",
"PATIENTS_NOT_FOUND")` when none resolve; otherwise one archive with every
resolved patient's entries in request order. -/
def bulk_export_patients (db : List Patient) (patient_ids : List Nat)
    (orth : Orthanc) : Except HErr (List ZipEntry) :=
  let patients := patient_ids.filterMap (fun i => get_patient db i)
  if patients.isEmpty then
    Except.error (mkNotFoundError "Aucun patient trouvé" "PATIENTS_NOT_FOUND")
  else
    Except.ok (patients.flatMap (fun p => add_patient_to_zip orth p))

/-- Concrete database for the refresh witnesses: one active user owning one
session keyed by the refresh JTI `"rj"`, empty revocation ledger. -/
def demoAuthDb : AuthDb :=
  { users := [{ id := 1, email := "admin@x.test", full_name := "Admin",
                hashed_password := "bcrypt-ok", role := "admin",
                status := "active", group_id := none }],
    revoked := [],
    sessions := [{ id := "rj", user_id := 1, created_at := 0,
                   last_activity := 0, is_active := true }] }

/-- A valid refresh token for user 1 with JTI `"rj"`. -/
def demoRefreshTok : Tok :=
  { claims := { sub := some 1, jti := some "rj", type := some "refresh",
                exp := 1000 },
    valid := true }

/-- An otherwise valid token whose embedded kind is `access`. -/
def demoAccessTok : Tok :=
  { claims := { sub := some 1, jti := some "rj", type := some "access",
                exp := 1000 },
    valid := true }

/-- The response a successful refresh against `demoAuthDb` produces at
`now = 5`, `accessTtl = 10`, fresh JTI `"nj"`. -/
def demoRefreshOk : RefreshOk :=
  { access_token := { sub := 1, type := "access", jti := "nj", exp := 15 },
    csrf_token := "csrf", setCookies := [] }

/-- The database after that successful refresh: only `last_activity` of the
session keyed `"rj"` moved to 5. -/
def demoAuthDb2 : AuthDb :=
  { users := demoAuthDb.users, revoked := demoAuthDb.revoked,
    sessions := [{ id := "rj", user_id := 1, created_at := 0,
                   last_activity := 5, is_active := true }] }

/-- An existing patient row with external id `"P1"`. -/
def demoPatient1 : Patient :=
  { id := 1, external_id := "P1", first_name := "A", last_name := "B",
    condition := none, date_of_birth := none, last_visit := none,
    dicom_study_uid := none, orthanc_patient_id := none }

/-- An import payload reusing the external id `"P1"`. -/
def demoPayloadP1 : PatientCreate :=
  { external_id := "P1", first_name := "New", last_name := "Name",
    condition := some "c", date_of_birth := none, last_visit := none,
    dicom_study_uid := none, orthanc_patient_id := none }

/-- Concrete parser for validator witnesses: `[1]` is a DICOM file with
`PatientID` `"X"`, `[2]` one lacking the tag, anything else unparseable. -/
def demoParse (b : Bytes) : Option Dataset :=
  if b == [1] then some { patientID := some "X", patientName := some "N" }
  else if b == [2] then some { patientID := none, patientName := none }
  else none

/-- Concrete serializer for the rewrite witness. -/
def demoSerialize (ds : Dataset) : Bytes :=
  if ds.patientID == some "APP_7_EXT" then [7] else [0]

/-- Patient record for the rewrite witness: internal id 7, external id
`"EXT"`. -/
def demoPatient8 : Patient :=
  { id := 7, external_id := "EXT", first_name := "Jane", last_name := "Doe",
    condition := none, date_of_birth := none, last_visit := none,
    dicom_study_uid := none, orthanc_patient_id := none }

/-- Patient record with remote linkage for the export witness. -/
def demoExportPatient : Patient :=
  { id := 1, external_id := "P1", first_name := "A", last_name := "B",
    condition := none, date_of_birth := none, last_visit := none,
    dicom_study_uid := some "st1", orthanc_patient_id := some "op1" }

/-- Gateway for the export witness: patient `"op1"` has one instance
`"i1"` with series `2`, instance number `7`, bytes `[5]`. -/
def demoOrthanc9 : Orthanc :=
  { stream_instance := fun i => if i == "i1" then some [5] else none,
    list_instances := fun pid =>
      if pid == "op1" then
        some [{ id := some "i1", seriesNumber := some "2",
                instanceNumber := some "7" }]
      else none,
    upload_stream := fun _ =>
      { parentPatient := none, parentStudy := none } }

/-- Concrete user table for witnesses: an active admin, a user with an
unsupported (legacy plaintext) hash, and a disabled user. -/
def demoUsers : List User :=
  [{ id := 1, email := "admin@x.test", full_name := "Admin",
     hashed_password := "bcrypt-ok", role := "admin", status := "active",
     group_id := none },
   { id := 2, email := "legacy@x.test", full_name := "Legacy",
     hashed_password := "plaintext", role := "user", status := "active",
     group_id := none },
   { id := 3, email := "gone@x.test", full_name := "Gone",
     hashed_password := "bcrypt-ok", role := "user", status := "disabled",
     group_id := none }]

/-- Witness oracle for `is_supported_password_hash`. -/
def demoSupported (h : String) : Bool := h == "bcrypt-ok"

/-- Witness oracle for `verify_password`. -/
def demoVerify (password h : String) : Bool :=
  password == "secret" && h == "bcrypt-ok"

end PreviewDicom

namespace PreviewDicom

/-! ## Claim theorems: C1, C2, C10 -/

/-- C1: the claim states that `enforce_csrf` raises a 403 `ForbiddenError`
when the `csrf_token` cookie is missing, the `X-CSRF-Token` header is
missing, or the two differ. In the source the `raise` is commented out, so
the guard lets the request proceed in every one of those cases (evaluated
here at the three failing inputs, plus the matching case). -/
theorem c1_enforce_csrf_never_rejects :
    enforce_csrf none none = GuardOutcome.proceed ∧
    enforce_csrf (some "tok") none = GuardOutcome.proceed ∧
    enforce_csrf (some "tok") (some "other") = GuardOutcome.proceed ∧
    enforce_csrf (some "tok") (some "tok") = GuardOutcome.proceed := by
  refine ⟨rfl, rfl, ?_, rfl⟩
  simp [enforce_csrf]

/-- C2: the claim states that `revoke_token` is idempotent. On an empty
ledger, revoking JTI `"j1"` once succeeds and `is_token_revoked` then
reports `true`; but revoking the same JTI a second time hits the unique
index `ix_revoked_tokens_jti` and the commit fails with an
`IntegrityError`, so the second call errors. -/
theorem c2_revoke_token_not_idempotent :
    ∃ db1, revoke_token "j1" "refresh" 1 10 100 [] = Except.ok db1 ∧
      is_token_revoked "j1" db1 = true ∧
      revoke_token "j1" "refresh" 1 10 100 db1 =
        Except.error DbError.integrityError := by
  refine ⟨[{ jti := "j1", token_type := "refresh", user_id := 1,
             revoked_at := 10, expires_at := 100 }], ?_, ?_, ?_⟩ <;> rfl

/-- C10: `cleanup_expired_tokens now` deletes exactly the rows whose
`expires_at` is strictly before `now` — the surviving table equals the
filter keeping rows with `now ≤ expires_at`, and is a sublist of the
original (every other entry is left unchanged, in place). -/
theorem c10_cleanup_exact (now : Nat) (db : List RevokedToken) :
    cleanup_expired_tokens now db =
      db.filter (fun e => decide (now ≤ e.expires_at)) ∧
    (cleanup_expired_tokens now db).Sublist db ∧
    (∀ e ∈ db, e.expires_at < now → e ∉ cleanup_expired_tokens now db) ∧
    (∀ e ∈ db, now ≤ e.expires_at → e ∈ cleanup_expired_tokens now db) := by
  have hfil : cleanup_expired_tokens now db =
      db.filter (fun e => decide (now ≤ e.expires_at)) := by
    unfold cleanup_expired_tokens deleteWhere
    apply List.filter_congr
    intro e _
    simp only [← decide_not, decide_eq_decide, Nat.not_lt]
  refine ⟨hfil, ?_, ?_, ?_⟩
  · rw [hfil]; exact List.filter_sublist db
  · intro e he hlt hmem
    rw [hfil] at hmem
    have := List.of_mem_filter hmem
    simp at this
    omega
  · intro e he hle
    rw [hfil]
    exact List.mem_filter.mpr ⟨he, by simpa using hle⟩

/-- Witness for C10 at a concrete ledger: one expired and one live entry at
`now = 50`. -/
theorem c10_cleanup_exact_witness :
    cleanup_expired_tokens 50
        [{ jti := "a", token_type := "refresh", user_id := 1,
           revoked_at := 0, expires_at := 10 },
         { jti := "b", token_type := "refresh", user_id := 2,
           revoked_at := 0, expires_at := 90 }] =
      List.filter (fun e => decide (50 ≤ e.expires_at))
        [{ jti := "a", token_type := "refresh", user_id := 1,
           revoked_at := 0, expires_at := 10 },
         { jti := "b", token_type := "refresh", user_id := 2,
           revoked_at := 0, expires_at := 90 }] ∧
    (cleanup_expired_tokens 50
        [{ jti := "a", token_type := "refresh", user_id := 1,
           revoked_at := 0, expires_at := 10 },
         { jti := "b", token_type := "refresh", user_id := 2,
           revoked_at := 0, expires_at := 90 }]).Sublist
        [{ jti := "a", token_type := "refresh", user_id := 1,
           revoked_at := 0, expires_at := 10 },
         { jti := "b", token_type := "refresh", user_id := 2,
           revoked_at := 0, expires_at := 90 }] := by
  have h := c10_cleanup_exact 50
    [{ jti := "a", token_type := "refresh", user_id := 1,
       revoked_at := 0, expires_at := 10 },
     { jti := "b", token_type := "refresh", user_id := 2,
       revoked_at := 0, expires_at := 90 }]
  exact ⟨h.1, h.2.1⟩

/-- C4: every one of the four login-failure conditions — email not found,
stored hash unsupported, password mismatch, identity not active — makes
`login` return the one same error value
`AuthenticationError("Email ou mot de passe incorrect", "INVALID_CREDENTIALS")`
(status 401, code `INVALID_CREDENTIALS`), so the four causes are externally
indistinguishable. -/
theorem c4_login_uniform_error (supported : String → Bool)
    (verify : String → String → Bool) (db : List User)
    (email password : String)
    (h : get_user_by_email db email = none ∨
         ∃ u, get_user_by_email db email = some u ∧
           (supported u.hashed_password = false ∨
            verify password u.hashed_password = false ∨
            u.status ≠ "active")) :
    login supported verify db email password =
      Except.error
        (AuthenticationError "Email ou mot de passe incorrect" "INVALID_CREDENTIALS") ∧
    (AuthenticationError "Email ou mot de passe incorrect" "INVALID_CREDENTIALS").status
      = 401 := by
  refine ⟨?_, rfl⟩
  unfold login authenticate_user
  rcases h with h | ⟨u, hu, hc⟩
  · rw [h]
  · rw [hu]
    rcases hc with hs | hv | hst
    · simp [hs]
    · cases hsup : supported u.hashed_password <;> simp [hsup, hv]
    · cases hsup : supported u.hashed_password <;>
        cases hver : verify password u.hashed_password <;>
        simp [hsup, hver, hst]

/-- C5: the refresh route fails with an `AuthenticationError` (status 401)
when the presented token's kind is not `refresh`, when its JTI is revoked,
or when the owning identity is missing or not active; and on success it
issues only a new access token — the response sets no cookie (so the
refresh token is not rotated), the revocation ledger and user table are
untouched, and the session table keeps the same keyed rows (only
`last_activity` is touched). -/
theorem c5_refresh_guards_and_no_rotation (db : AuthDb) (tok : Tok)
    (csrfCookie : Option String) (now accessTtl : Nat)
    (freshJti freshCsrf : String) :
    (tok.valid = true → tok.claims.type ≠ some "refresh" →
      refresh db (some tok) csrfCookie now accessTtl freshJti freshCsrf =
        Except.error (AuthenticationError "Type invalide" "INVALID_TYPE")) ∧
    (∀ j, tok.valid = true → tok.claims.type = some "refresh" →
      tok.claims.jti = some j → is_token_revoked j db.revoked = true →
      refresh db (some tok) csrfCookie now accessTtl freshJti freshCsrf =
        Except.error (AuthenticationError "Token révoqué" "REVOKED")) ∧
    (∀ j, tok.valid = true → tok.claims.type = some "refresh" →
      tok.claims.jti = some j → j.isEmpty = false →
      is_token_revoked j db.revoked = false →
      (get_user db.users tok.claims.sub = none ∨
        ∃ u, get_user db.users tok.claims.sub = some u ∧ u.status ≠ "active") →
      refresh db (some tok) csrfCookie now accessTtl freshJti freshCsrf =
        Except.error (AuthenticationError "Utilisateur inactif" "INACTIVE")) ∧
    (∀ r db2,
      refresh db (some tok) csrfCookie now accessTtl freshJti freshCsrf =
        Except.ok (r, db2) →
      r.setCookies = [] ∧ r.access_token.type = "access" ∧
      db2.revoked = db.revoked ∧ db2.users = db.users ∧
      db2.sessions.map (fun s => s.id) = db.sessions.map (fun s => s.id)) := by
  refine ⟨?_, ?_, ?_, ?_⟩
  · intro hv ht
    unfold refresh decode_token
    have : (tok.claims.type != some "refresh") = true := by
      simpa using ht
    simp [hv, this]
  · intro j hv ht hj hrev
    unfold refresh decode_token
    simp [hv, ht, hj, hrev]
  · intro j hv ht hj hne hrev hu
    unfold refresh decode_token
    rcases hu with hu | ⟨u, hu, hst⟩
    · simp [hv, ht, hj, hne, hrev, hu]
    · have : (u.status != "active") = true := by simpa using hst
      simp [hv, ht, hj, hne, hrev, hu, this]
  · intro r db2 h
    unfold refresh decode_token at h
    cases hv : tok.valid with
    | false => simp [hv] at h
    | true =>
      simp only [hv, if_true] at h
      by_cases ht : (tok.claims.type != some "refresh") = true
      · simp [ht] at h
      · simp only [Bool.not_eq_true] at ht
        simp only [ht, Bool.false_eq_true, if_false] at h
        cases hj : tok.claims.jti with
        | none => simp [hj] at h
        | some j =>
          simp only [hj] at h
          by_cases hrev : (j.isEmpty || is_token_revoked j db.revoked) = true
          · simp [hrev] at h
          · simp only [Bool.not_eq_true] at hrev
            simp only [hrev, Bool.false_eq_true, if_false] at h
            cases hu : get_user db.users tok.claims.sub with
            | none => simp [hu] at h
            | some u =>
              simp only [hu] at h
              by_cases hst : (u.status != "active") = true
              · simp [hst] at h
              · simp only [Bool.not_eq_true] at hst
                simp only [hst, Bool.false_eq_true, if_false,
                  Except.ok.injEq, Prod.mk.injEq] at h
                obtain ⟨hr, hdb⟩ := h
                subst hr hdb
                refine ⟨rfl, rfl, rfl, rfl, ?_⟩
                simp only [List.map_map]
                apply List.map_congr_left
                intro s _
                simp only [Function.comp_apply]
                split <;> rfl

/-- Witness for C5 at concrete inputs: a wrongly-kinded token is rejected
with `INVALID_TYPE`, and a successful refresh sets no cookies, keeps the
ledger and returns an access-kinded token. -/
theorem c5_refresh_guards_and_no_rotation_witness :
    (refresh demoAuthDb (some demoAccessTok) (some "csrf") 5 10 "nj" "fc" =
      Except.error (AuthenticationError "Type invalide" "INVALID_TYPE")) ∧
    (refresh demoAuthDb (some demoRefreshTok) (some "csrf") 5 10 "nj" "fc" =
      Except.ok (demoRefreshOk, demoAuthDb2)) ∧
    demoRefreshOk.setCookies = [] ∧
    demoRefreshOk.access_token.type = "access" ∧
    demoAuthDb2.revoked = demoAuthDb.revoked ∧
    demoAuthDb2.users = demoAuthDb.users ∧
    demoAuthDb2.sessions.map (fun s => s.id) =
      demoAuthDb.sessions.map (fun s => s.id) := by
  have hok : refresh demoAuthDb (some demoRefreshTok) (some "csrf") 5 10
      "nj" "fc" = Except.ok (demoRefreshOk, demoAuthDb2) := by rfl
  have h4 := (c5_refresh_guards_and_no_rotation demoAuthDb demoRefreshTok
    (some "csrf") 5 10 "nj" "fc").2.2.2 demoRefreshOk demoAuthDb2 hok
  exact ⟨(c5_refresh_guards_and_no_rotation demoAuthDb demoAccessTok
    (some "csrf") 5 10 "nj" "fc").1 (by decide) (by decide),
    hok, h4.1, h4.2.1, h4.2.2.1, h4.2.2.2.1, h4.2.2.2.2⟩

/-- C3: the claim says the raw image fetch returns the instance bytes with
no authentication applied. The route indeed applies no authentication — it
declares no `get_current_user` dependency, so its outcome is identical for
an anonymous caller and any credentialed caller — but it never returns the
instance bytes: the handler binds the gateway call without `await`,
`Response` raises on the coroutine object, and the blanket `except`
returns 404 `"Image non trouvée"` on every request, whatever the gateway
holds. -/
theorem c3_image_fetch_always_404 (users : List User) (bearer : Option Tok)
    (orthanc : Orthanc) (instance_id : String) :
    get_dicom_image_route users bearer orthanc instance_id =
      Except.error (httpException 404 "Image non trouvée") ∧
    get_dicom_image_route users bearer orthanc instance_id =
      get_dicom_image_route [] none orthanc instance_id :=
  ⟨rfl, rfl⟩

/-- C6 counterexample: with a patient whose external id `"P1"` already
exists, importing a payload carrying `"P1"` does not update the existing
record — the unconditional insert hits the unique constraint on
`patients.external_id` and the import fails with an `IntegrityError`. -/
theorem c6_import_duplicate_fails :
    import_patient_record [demoPatient1] demoPayloadP1 2 =
      Except.error DbError.integrityError := rfl

/-- C6 (amended): the import applies create-only semantics keyed by the
external identifier: a fresh external id creates a new row built from the
payload, and an external id that already exists makes the insert fail with
an `IntegrityError` — the existing record is never updated. -/
theorem c6_import_create_only (db : List Patient) (payload : PatientCreate)
    (nextId : Nat) :
    (db.any (fun q => q.external_id == payload.external_id) = true →
      import_patient_record db payload nextId =
        Except.error DbError.integrityError) ∧
    (db.any (fun q => q.external_id == payload.external_id) = false →
      import_patient_record db payload nextId =
        Except.ok (db ++ [mkPatientRow nextId payload],
          mkPatientRow nextId payload)) := by
  constructor <;> intro h <;> unfold import_patient_record create_patient <;>
    simp [h]

/-- Witness for C6 (amended) at concrete inputs: both the duplicate and
the fresh external id case. -/
theorem c6_import_create_only_witness :
    ([demoPatient1].any
        (fun q => q.external_id == demoPayloadP1.external_id) = true) ∧
    import_patient_record [demoPatient1] demoPayloadP1 2 =
      Except.error DbError.integrityError ∧
    (([] : List Patient).any
        (fun q => q.external_id == demoPayloadP1.external_id) = false) ∧
    import_patient_record [] demoPayloadP1 1 =
      Except.ok ([mkPatientRow 1 demoPayloadP1], mkPatientRow 1 demoPayloadP1) := by
  refine ⟨by decide, ?_, by decide, ?_⟩
  · exact (c6_import_create_only [demoPatient1] demoPayloadP1 2).1 (by decide)
  · exact (c6_import_create_only [] demoPayloadP1 1).2 (by decide)

/-- C7: on a fresh upload, structural validation fails exactly when the
payload is empty, exceeds the configured maximum size, does not parse as
DICOM, or lacks the `PatientID` tag; every failure is a client error (4xx)
with a message naming the specific cause; and on success the read position
is restored to the start so the stream can be re-read by later stages. -/
theorem c7_validate_dicom_exact (parse : Bytes → Option Dataset)
    (maxSize : Nat) (content : Bytes) :
    ((∃ e, validate_dicom_file parse maxSize ⟨content, 0⟩ = Except.error e) ↔
      (content.length = 0 ∨ content.length > maxSize ∨
       parse content = none ∨
       ∃ ds, parse content = some ds ∧ ds.patientID = none)) ∧
    (∀ e, validate_dicom_file parse maxSize ⟨content, 0⟩ = Except.error e →
      400 ≤ e.status ∧ e.status < 500) ∧
    (content.length > maxSize →
      validate_dicom_file parse maxSize ⟨content, 0⟩ =
        Except.error (httpException 413 "File too large")) ∧
    (content.length = 0 →
      validate_dicom_file parse maxSize ⟨content, 0⟩ =
        Except.error (httpException 400 "Empty file uploaded")) ∧
    (content.length ≠ 0 → content.length ≤ maxSize → parse content = none →
      validate_dicom_file parse maxSize ⟨content, 0⟩ =
        Except.error (httpException 400 "Invalid DICOM file")) ∧
    (∀ ds, content.length ≠ 0 → content.length ≤ maxSize →
      parse content = some ds → ds.patientID = none →
      validate_dicom_file parse maxSize ⟨content, 0⟩ =
        Except.error (httpException 400
          "Error validating DICOM file: Invalid DICOM: Missing PatientID tag")) ∧
    (∀ f', validate_dicom_file parse maxSize ⟨content, 0⟩ = Except.ok f' →
      f'.pos = 0 ∧ f'.content = content) := by
  rcases Nat.lt_or_ge maxSize content.length with hgt | hle
  · have heval : validate_dicom_file parse maxSize ⟨content, 0⟩ =
        Except.error (httpException 413 "File too large") := by
      unfold validate_dicom_file
      simp only [List.drop_zero]
      rw [if_pos hgt]
    refine ⟨⟨fun _ => Or.inr (Or.inl hgt), fun _ => ⟨_, heval⟩⟩,
      ?_, fun _ => heval, ?_, ?_, ?_, ?_⟩
    · intro e he
      rw [heval] at he
      injection he with h
      subst h
      exact ⟨by decide, by decide⟩
    · intro h0
      exact absurd hgt (by omega)
    · intro _ hle' _
      exact absurd hgt (by omega)
    · intro _ _ hle' _ _
      exact absurd hgt (by omega)
    · intro f' hf
      rw [heval] at hf
      simp at hf
  · have hnotgt : ¬ content.length > maxSize := by omega
    by_cases h0 : content.length = 0
    · have heval : validate_dicom_file parse maxSize ⟨content, 0⟩ =
          Except.error (httpException 400 "Empty file uploaded") := by
        unfold validate_dicom_file
        simp only [List.drop_zero]
        rw [if_neg hnotgt, if_pos h0]
      refine ⟨⟨fun _ => Or.inl h0, fun _ => ⟨_, heval⟩⟩,
        ?_, ?_, fun _ => heval, ?_, ?_, ?_⟩
      · intro e he
        rw [heval] at he
        injection he with h
        subst h
        exact ⟨by decide, by decide⟩
      · intro hgt'
        exact absurd hgt' hnotgt
      · intro hne _ _
        exact absurd h0 hne
      · intro _ hne _ _ _
        exact absurd h0 hne
      · intro f' hf
        rw [heval] at hf
        simp at hf
    · cases hp : parse content with
      | none =>
        have heval : validate_dicom_file parse maxSize ⟨content, 0⟩ =
            Except.error (httpException 400 "Invalid DICOM file") := by
          unfold validate_dicom_file
          simp only [List.drop_zero]
          rw [if_neg hnotgt, if_neg h0, hp]
        refine ⟨⟨fun _ => Or.inr (Or.inr (Or.inl rfl)), fun _ => ⟨_, heval⟩⟩,
          ?_, ?_, ?_, fun _ _ _ => heval, ?_, ?_⟩
        · intro e he
          rw [heval] at he
          injection he with h
          subst h
          exact ⟨by decide, by decide⟩
        · intro hgt'
          exact absurd hgt' hnotgt
        · intro h0'
          exact absurd h0' h0
        · intro ds _ _ hps _
          simp at hps
        · intro f' hf
          rw [heval] at hf
          simp at hf
      | some ds0 =>
        cases hpid : ds0.patientID with
        | none =>
          have heval : validate_dicom_file parse maxSize ⟨content, 0⟩ =
              Except.error (httpException 400
                "Error validating DICOM file: Invalid DICOM: Missing PatientID tag") := by
            unfold validate_dicom_file
            simp only [List.drop_zero]
            rw [if_neg hnotgt, if_neg h0, hp]
            simp [hpid]
          refine ⟨⟨fun _ => Or.inr (Or.inr (Or.inr ⟨ds0, rfl, hpid⟩)),
            fun _ => ⟨_, heval⟩⟩, ?_, ?_, ?_, ?_, ?_, ?_⟩
          · intro e he
            rw [heval] at he
            injection he with h
            subst h
            exact ⟨by decide, by decide⟩
          · intro hgt'
            exact absurd hgt' hnotgt
          · intro h0'
            exact absurd h0' h0
          · intro _ _ hps
            simp at hps
          · intro _ _ _ _ _
            exact heval
          · intro f' hf
            rw [heval] at hf
            simp at hf
        | some pid =>
          have heval : validate_dicom_file parse maxSize ⟨content, 0⟩ =
              Except.ok ⟨content, 0⟩ := by
            unfold validate_dicom_file
            simp only [List.drop_zero]
            rw [if_neg hnotgt, if_neg h0, hp]
            simp [hpid]
          refine ⟨⟨?_, ?_⟩, ?_, ?_, ?_, ?_, ?_, ?_⟩
          · rintro ⟨e, he⟩
            rw [heval] at he
            simp at he
          · intro hor
            rcases hor with h0' | hgt' | hps | ⟨ds, hps, hnone⟩
            · exact absurd h0' h0
            · exact absurd hgt' hnotgt
            · simp at hps
            · injection hps with h
              subst h
              rw [hpid] at hnone
              simp at hnone
          · intro e he
            rw [heval] at he
            simp at he
          · intro hgt'
            exact absurd hgt' hnotgt
          · intro h0'
            exact absurd h0' h0
          · intro _ _ hps
            simp at hps
          · intro ds _ _ hps hnone
            injection hps with h
            subst h
            rw [hpid] at hnone
            simp at hnone
          · intro f' hf
            rw [heval] at hf
            injection hf with h
            subst h
            exact ⟨rfl, rfl⟩

/-- Witness for C7 at concrete inputs (maximum size 4): the empty, the
oversized, the unparseable and the tagless payloads each fail, and the
valid payload `[1]` succeeds with the position reset to the start. -/
theorem c7_validate_dicom_exact_witness :
    validate_dicom_file demoParse 4 ⟨[], 0⟩ =
      Except.error (httpException 400 "Empty file uploaded") ∧
    validate_dicom_file demoParse 4 ⟨[9, 9, 9, 9, 9], 0⟩ =
      Except.error (httpException 413 "File too large") ∧
    validate_dicom_file demoParse 4 ⟨[3], 0⟩ =
      Except.error (httpException 400 "Invalid DICOM file") ∧
    validate_dicom_file demoParse 4 ⟨[2], 0⟩ =
      Except.error (httpException 400
        "Error validating DICOM file: Invalid DICOM: Missing PatientID tag") ∧
    (∀ f', validate_dicom_file demoParse 4 ⟨[1], 0⟩ = Except.ok f' →
      f'.pos = 0 ∧ f'.content = [1]) := by
  refine ⟨?_, ?_, ?_, ?_, ?_⟩
  · exact (c7_validate_dicom_exact demoParse 4 []).2.2.2.1 (by decide)
  · exact (c7_validate_dicom_exact demoParse 4 [9, 9, 9, 9, 9]).2.2.1
      (by decide)
  · exact (c7_validate_dicom_exact demoParse 4 [3]).2.2.2.2.1 (by decide)
      (by decide) (by decide)
  · exact (c7_validate_dicom_exact demoParse 4 [2]).2.2.2.2.2.1
      { patientID := none, patientName := none } (by decide) (by decide)
      (by decide) (by decide)
  · exact (c7_validate_dicom_exact demoParse 4 [1]).2.2.2.2.2.2

/-- C8: for every file in an import, the rewritten dataset's `PatientID`
is the synthetic value `APP_<internal id>_<external id>` — a fixed prefix
plus the two identifiers, hence deterministic in them — and when the
rewrite step fails the original unmodified bytes are what gets uploaded
(the import is not aborted). -/
theorem c8_rewrite_synthetic_or_fallback (parse : Bytes → Option Dataset)
    (serialize : Dataset → Bytes) (patient : Patient) (content : Bytes) :
    (∀ ds, parse content = some ds →
      processFile parse serialize patient content =
        serialize (rewrittenDataset patient ds) ∧
      (rewrittenDataset patient ds).patientID =
        some ("APP_" ++ toString patient.id ++ "_" ++ patient.external_id)) ∧
    (parse content = none →
      processFile parse serialize patient content = content) := by
  constructor
  · intro ds h
    refine ⟨?_, rfl⟩
    unfold processFile rewriteDicom
    rw [h]
    rfl
  · intro h
    unfold processFile rewriteDicom
    rw [h]
    rfl

/-- Witness for C8 at concrete inputs: on the parseable payload `[1]` the
uploaded bytes are the re-serialized dataset whose `PatientID` is
`"APP_7_EXT"`; on the unparseable payload `[3]` the original bytes are
uploaded unchanged. -/
theorem c8_rewrite_synthetic_or_fallback_witness :
    processFile demoParse demoSerialize demoPatient8 [1] =
      demoSerialize (rewrittenDataset demoPatient8
        { patientID := some "X", patientName := some "N" }) ∧
    (rewrittenDataset demoPatient8
        { patientID := some "X", patientName := some "N" }).patientID =
      some "APP_7_EXT" ∧
    processFile demoParse demoSerialize demoPatient8 [3] = [3] := by
  have h := c8_rewrite_synthetic_or_fallback demoParse demoSerialize
    demoPatient8 [3]
  refine ⟨?_, by decide, h.2 (by decide)⟩
  exact (c8_rewrite_synthetic_or_fallback demoParse demoSerialize
    demoPatient8 [1]).1 { patientID := some "X", patientName := some "N" }
    (by decide) |>.1

/-- `filterMap` is unchanged by first discarding the elements it drops. -/
theorem filterMap_of_filter_isSome {α β : Type} (f : α → Option β)
    (l : List α) :
    l.filterMap f = (l.filter (fun a => (f a).isSome)).filterMap f := by
  induction l with
  | nil => rfl
  | cons a t ih =>
    cases h : f a with
    | none => simp [List.filterMap_cons, List.filter_cons, h, ih]
    | some b => simp [List.filterMap_cons, List.filter_cons, h, ih]

/-- C9: bulk export fails with `NotFoundError`/`PATIENTS_NOT_FOUND`
exactly when no requested id resolves, and ids that do not resolve are
silently omitted (the archive equals the one for the resolved sublist of
ids, in request order); but every resolved patient's folder holds exactly
the one `Patient-<id>/Patient-<id>.json` document and never any `.dcm`
member: the per-instance loop is dead code behind the un-awaited gateway
call. -/
theorem c9_bulk_export_json_only (db : List Patient) (ids : List Nat)
    (orth : Orthanc) :
    (bulk_export_patients db ids orth =
        Except.error
          (mkNotFoundError "Aucun patient trouvé" "PATIENTS_NOT_FOUND") ↔
      ids.filterMap (fun i => get_patient db i) = []) ∧
    (bulk_export_patients db ids orth =
      bulk_export_patients db
        (ids.filter (fun i => (get_patient db i).isSome)) orth) ∧
    (∀ entries, bulk_export_patients db ids orth = Except.ok entries →
      entries = (ids.filterMap (fun i => get_patient db i)).map (fun p =>
        { path := folderName p ++ "/" ++ folderName p ++ ".json",
          content := EntryContent.jsonMeta (externalOrInternal p)
            p.orthanc_patient_id p.dicom_study_uid })) ∧
    (∀ p, add_patient_to_zip orth p =
      [{ path := folderName p ++ "/" ++ folderName p ++ ".json",
         content := EntryContent.jsonMeta (externalOrInternal p)
           p.orthanc_patient_id p.dicom_study_uid }]) := by
  have key : ids.filterMap (fun i => get_patient db i) =
      (ids.filter (fun i => (get_patient db i).isSome)).filterMap
        (fun i => get_patient db i) :=
    filterMap_of_filter_isSome (fun i => get_patient db i) ids
  have hsingle : ∀ p : Patient, add_patient_to_zip orth p =
      [{ path := folderName p ++ "/" ++ folderName p ++ ".json",
         content := EntryContent.jsonMeta (externalOrInternal p)
           p.orthanc_patient_id p.dicom_study_uid }] := by
    intro p
    unfold add_patient_to_zip
    split <;> rfl
  refine ⟨?_, ?_, ?_, hsingle⟩
  · by_cases hpe : (ids.filterMap (fun i => get_patient db i)).isEmpty
    · have hnil : ids.filterMap (fun i => get_patient db i) = [] :=
        List.isEmpty_iff.mp hpe
      constructor
      · intro _
        exact hnil
      · intro _
        unfold bulk_export_patients
        rw [if_pos hpe]
    · have hne : ids.filterMap (fun i => get_patient db i) ≠ [] := by
        simpa [List.isEmpty_iff] using hpe
      constructor
      · intro h
        unfold bulk_export_patients at h
        rw [if_neg hpe] at h
        simp at h
      · intro h
        exact absurd h hne
  · unfold bulk_export_patients
    rw [← key]
  · intro entries h
    unfold bulk_export_patients at h
    by_cases hpe : (ids.filterMap (fun i => get_patient db i)).isEmpty
    · rw [if_pos hpe] at h
      simp at h
    · rw [if_neg hpe] at h
      injection h with h
      rw [← h]
      generalize ids.filterMap (fun i => get_patient db i) = l
      induction l with
      | nil => rfl
      | cons a t ih => simp [List.flatMap_cons, hsingle a, ih]

/-- Witness for C9 at concrete inputs: requesting only the unresolvable id
999 is an error; requesting `[1, 999]` silently drops 999 and yields an
archive holding exactly `Patient-P1/Patient-P1.json` — no `.dcm` member,
although the gateway does hold an instance for the patient. -/
theorem c9_bulk_export_json_only_witness :
    bulk_export_patients [demoExportPatient] [999] demoOrthanc9 =
      Except.error
        (mkNotFoundError "Aucun patient trouvé" "PATIENTS_NOT_FOUND") ∧
    bulk_export_patients [demoExportPatient] [1, 999] demoOrthanc9 =
      bulk_export_patients [demoExportPatient]
        ([1, 999].filter
          (fun i => (get_patient [demoExportPatient] i).isSome)) demoOrthanc9 ∧
    bulk_export_patients [demoExportPatient] [1, 999] demoOrthanc9 =
      Except.ok
        [{ path := "Patient-P1/Patient-P1.json",
           content := EntryContent.jsonMeta "P1" (some "op1") (some "st1") }] := by
  refine ⟨?_, ?_, by rfl⟩
  · exact (c9_bulk_export_json_only [demoExportPatient] [999]
      demoOrthanc9).1.mpr (by decide)
  · exact (c9_bulk_export_json_only [demoExportPatient] [1, 999]
      demoOrthanc9).2.1

/-- Witness for C4 at concrete inputs: unknown email, unsupported hash,
wrong password and inactive account all yield the identical 401 error. -/
theorem c4_login_uniform_error_witness :
    (login demoSupported demoVerify demoUsers "absent@x.test" "secret" =
      Except.error
        (AuthenticationError "Email ou mot de passe incorrect" "INVALID_CREDENTIALS")) ∧
    (login demoSupported demoVerify demoUsers "legacy@x.test" "secret" =
      Except.error
        (AuthenticationError "Email ou mot de passe incorrect" "INVALID_CREDENTIALS")) ∧
    (login demoSupported demoVerify demoUsers "admin@x.test" "wrong" =
      Except.error
        (AuthenticationError "Email ou mot de passe incorrect" "INVALID_CREDENTIALS")) ∧
    (login demoSupported demoVerify demoUsers "gone@x.test" "secret" =
      Except.error
        (AuthenticationError "Email ou mot de passe incorrect" "INVALID_CREDENTIALS")) := by
  refine ⟨?_, ?_, ?_, ?_⟩
  · exact (c4_login_uniform_error demoSupported demoVerify demoUsers
      "absent@x.test" "secret" (Or.inl (by decide))).1
  · exact (c4_login_uniform_error demoSupported demoVerify demoUsers
      "legacy@x.test" "secret"
      (Or.inr ⟨{ id := 2, email := "legacy@x.test", full_name := "Legacy",
                 hashed_password := "plaintext", role := "user",
                 status := "active", group_id := none },
        by decide, Or.inl (by decide)⟩)).1
  · exact (c4_login_uniform_error demoSupported demoVerify demoUsers
      "admin@x.test" "wrong"
      (Or.inr ⟨{ id := 1, email := "admin@x.test", full_name := "Admin",
                 hashed_password := "bcrypt-ok", role := "admin",
                 status := "active", group_id := none },
        by decide, Or.inr (Or.inl (by decide))⟩)).1
  · exact (c4_login_uniform_error demoSupported demoVerify demoUsers
      "gone@x.test" "secret"
      (Or.inr ⟨{ id := 3, email := "gone@x.test", full_name := "Gone",
                 hashed_password := "bcrypt-ok", role := "user",
                 status := "disabled", group_id := none },
        by decide, Or.inr (Or.inr (by decide))⟩)).1

end PreviewDicom
